import Mathlib

/-!
Verification of the gorush iOS dispatch engine (`notify/notification_apns.go`).

The Go source is shallowly embedded: configuration and request records mirror
the Go structs field by field (only the fields this file's functions read are
kept); the external APNs SDK calls (`client.Push`, certificate loading,
transport configuration) are abstracted as oracle parameters, since they are
out-of-scope provider SDK behaviour; goroutine effects (counter increments,
log/feedback emission, retry-token collection) are modelled by an explicit
state record threaded in token order, which fixes one linearization of the
concurrent appends -- all properties proved below are order-insensitive
(membership, counts, and whole-round aggregates).
-/

namespace Gorush

/-! ### Configuration (`config.ConfYaml`, the sections read by the dispatch file) -/

structure SectionCore where
  sync : Bool := false
  feedbackURL : String := ""
  feedbackTimeout : Int := 0
  httpProxy : String := ""
  deriving DecidableEq

structure SectionIos where
  enabled : Bool := false
  keyPath : String := ""
  keyBase64 : String := ""
  keyType : String := ""
  password : String := ""
  keyID : String := ""
  teamID : String := ""
  production : Bool := false
  maxConcurrentPushes : Nat := 0
  maxRetry : Int := 0
  deriving DecidableEq

structure SectionQueue where
  engine : String := ""
  deriving DecidableEq

structure ConfYaml where
  core : SectionCore := {}
  ios : SectionIos := {}
  queue : SectionQueue := {}
  deriving DecidableEq

/-- Modelled from the spec: the `core` package (not under `src/`) exposes a
predicate "is this a local/in-process queue", used solely to decide whether
synchronous mode is honorable.  The concrete extension is irrelevant to the
theorems below (they hypothesise its value); the local engine is named
"local". -/
def IsLocalQueue (engine : String) : Bool :=
  engine == "local"

/-! ### Request data model (`PushNotification`, the fields read by this file) -/

/-- `notify.Sound` struct (Critical, Name, Volume).  `Volume` is a `float32`
in Go; it is only ever copied and compared to zero here, never computed with,
so it is modelled as a rational. -/
structure Sound where
  critical : Int := 0
  name : String := ""
  volume : Rat := 0
  deriving DecidableEq

/-- Runtime shapes of the untyped (`interface{}`) `req.Sound` field.  `dict`
models a `map[string]interface{}` coming from HTTP request binding,
restricted to the keys `mapstructure` can match against `notify.Sound`
(unrecognized keys are ignored by `mapstructure.Decode`). -/
inductive GoSoundValue where
  | nil
  | str (s : String)
  | snd (s : Sound)
  | dict (critical : Option Int) (name : Option String) (volume : Option Rat)
  | other
  deriving DecidableEq

/-- `mapstructure.Decode` of a sound mapping into `notify.Sound`: present
keys are copied, absent keys leave the Go zero value. -/
def mapstructureDecodeSound (c : Option Int) (n : Option String) (v : Option Rat) : Sound :=
  { critical := c.getD 0, name := n.getD "", volume := v.getD 0 }

/-- `req.Alert` (the alert sub-object of a push request), fields read by
`iosAlertDictionary`. -/
structure ReqAlert where
  action : String := ""
  actionLocKey : String := ""
  body : String := ""
  launchImage : String := ""
  locArgs : List String := []
  locKey : String := ""
  title : String := ""
  subtitle : String := ""
  titleLocArgs : List String := []
  titleLocKey : String := ""
  summaryArg : String := ""
  summaryArgCount : Int := 0
  deriving DecidableEq

/-- `notify.PushNotification`, restricted to the fields read by
`notification_apns.go`.  Custom `Data` values are opaque to the dispatch
code (copied verbatim), so they are modelled as strings. -/
structure PushNotification where
  cfg : ConfYaml := {}
  tokens : List String := []
  apnsID : String := ""
  topic : String := ""
  collapseID : String := ""
  pushType : String := ""
  priority : String := ""
  expiration : Option Int := none
  title : String := ""
  message : String := ""
  alert : ReqAlert := {}
  badge : Option Int := none
  category : String := ""
  sound : GoSoundValue := .nil
  soundName : String := ""
  soundVolume : Rat := 0
  contentAvailable : Bool := false
  mutableContent : Bool := false
  threadID : String := ""
  urlArgs : List String := []
  data : List (String × String) := []
  retry : Int := 0
  production : Bool := false
  development : Bool := false
  apnsKeyPath : String := ""
  apnsKeyBase64 : String := ""
  apnsKeyType : String := ""
  apnsPassword : String := ""
  apnsKeyID : String := ""
  apnsTeamID : String := ""
  deriving DecidableEq

/-! ### Provider responses and per-token classification (`PushToIOS` worker body) -/

/-- The part of an `apns2.Response` the dispatch code reads. -/
structure APNSResponse where
  statusCode : Int
  reason : String := ""
  deriving DecidableEq

/-- Result of one `client.Push` call: `res` and `err` mirror the Go
`(*apns2.Response, error)` pair. -/
structure PushResult where
  res : Option APNSResponse := none
  err : Option String := none
  deriving DecidableEq

/-- `apns2.Response.Sent()`: true iff the status code is 200. -/
def APNSResponse.sent (r : APNSResponse) : Bool :=
  r.statusCode == 200

/-- The failure test of the worker:
`err != nil || (res != nil && res.StatusCode != http.StatusOK)`. -/
def isFailure (r : PushResult) : Bool :=
  r.err.isSome ||
    (match r.res with
     | some res => decide (res.statusCode ≠ 200)
     | none => false)

/-- The retry test of the worker:
`res != nil && res.StatusCode >= http.StatusInternalServerError`. -/
def isRetryable (r : PushResult) : Bool :=
  match r.res with
  | some res => decide (500 ≤ res.statusCode)
  | none => false

/-- The success test of the worker: `res != nil && res.Sent()`. -/
def isSent (r : PushResult) : Bool :=
  match r.res with
  | some res => res.sent
  | none => false

/-- The error carried into the failure log entry: the Go code substitutes
`errors.New(res.Reason)` when `err == nil`. -/
def errMessage (r : PushResult) : String :=
  match r.err with
  | some e => e
  | none =>
    match r.res with
    | some res => res.reason
    | none => ""

/-- Modelled from the spec: `logx.LogPushEntry` (built by `createLogPushEntry`
and `logPush`, which live in repository files not under `src/`).  The spec
describes it as "the structured failure log entry (token, platform, error
detail, timestamp)"; the token and error detail are the fields the claims
observe. -/
structure LogEntry where
  token : String
  error : Option String
  deriving DecidableEq

/-- Observable effects of a dispatch round: the two counters of
`status.StatStorage` touched by `PushToIOS`, the per-token log emissions, the
request-scoped synchronous log buffer (`req.AddLog`), and the dispatched
feedback-webhook entries (`DispatchFeedback`). -/
structure DispatchState where
  iosSuccess : Nat := 0
  iosError : Nat := 0
  failedLogs : List LogEntry := []
  succeededLogs : List LogEntry := []
  syncLogs : List LogEntry := []
  feedback : List LogEntry := []
  deriving DecidableEq

/-- Body of the per-token goroutine of `PushToIOS` (lines 460-501): classify
the push result, on failure log it, feed the sync buffer or the feedback
webhook, bump the error counter and decide whether the token is collected for
retry; independently, on a sent response log success and bump the success
counter.  Returns the updated state and the retry decision for this token. -/
def handleToken (cfg : ConfYaml) (token : String) (r : PushResult)
    (st : DispatchState) : DispatchState × Bool :=
  let stepFail : DispatchState :=
    if isFailure r then
      let entry : LogEntry := { token := token, error := some (errMessage r) }
      let st1 := { st with failedLogs := st.failedLogs ++ [entry] }
      let st2 :=
        if cfg.core.sync then
          { st1 with syncLogs := st1.syncLogs ++ [entry] }
        else if cfg.core.feedbackURL ≠ "" then
          { st1 with feedback := st1.feedback ++ [entry] }
        else st1
      { st2 with iosError := st2.iosError + 1 }
    else st
  let retry := isFailure r && isRetryable r
  let stFin :=
    if isSent r then
      { stepFail with
          succeededLogs := stepFail.succeededLogs ++ [{ token := token, error := none }],
          iosSuccess := stepFail.iosSuccess + 1 }
    else stepFail
  (stFin, retry)

/-- One dispatch round: the `for _, token := range req.Tokens` fan-out joined
by `wg.Wait()`.  `push` is the provider-call oracle for this round.  Returns
the state after all workers completed and the collected `newTokens`. -/
def dispatchRound (cfg : ConfYaml) (push : String → PushResult) :
    List String → DispatchState → DispatchState × List String
  | [], st => (st, [])
  | t :: ts, st =>
    let one := handleToken cfg t (push t) st
    let rest := dispatchRound cfg push ts one.1
    (rest.1, if one.2 then t :: rest.2 else rest.2)

/-- Per-round trace entry: the token list dispatched this round and the retry
set (`newTokens`) it produced. -/
structure RoundTrace where
  tokens : List String
  retrySet : List String
  deriving DecidableEq

/-- The `Retry:`/`goto Retry` loop of `PushToIOS` (lines 443-513).  `budget`
is the number of retries still allowed (`maxRetry - retryCount`, which the
loop condition `retryCount < maxRetry` tests against zero); `round` numbers
the rounds so the push oracle may answer differently per round.  Returns the
final state and the per-round trace. -/
def pushLoop (cfg : ConfYaml) (push : Nat → String → PushResult) :
    Nat → Nat → List String → DispatchState → DispatchState × List RoundTrace
  | 0, round, tokens, st =>
    let r := dispatchRound cfg (push round) tokens st
    (r.1, [{ tokens := tokens, retrySet := r.2 }])
  | budget + 1, round, tokens, st =>
    let r := dispatchRound cfg (push round) tokens st
    if r.2.isEmpty then (r.1, [{ tokens := tokens, retrySet := r.2 }])
    else
      let rest := pushLoop cfg push budget (round + 1) r.2 r.1
      (rest.1, { tokens := tokens, retrySet := r.2 } :: rest.2)

/-- The effective retry cap of `PushToIOS` (lines 434-441):
`maxRetry := cfg.Ios.MaxRetry; if req.Retry > 0 && req.Retry < maxRetry
then maxRetry = req.Retry`. -/
def effectiveMaxRetry (reqRetry iosMaxRetry : Int) : Int :=
  if reqRetry > 0 && reqRetry < iosMaxRetry then reqRetry else iosMaxRetry

/-- Outcome of a whole `PushToIOS` call: final observable state, per-round
trace, and the abort error logged when client resolution failed. -/
structure PushOutcome where
  state : DispatchState
  trace : List RoundTrace
  abortError : Option String
  deriving DecidableEq

/-- The synchronous-mode force-disable at the top of `PushToIOS`
(lines 430-432): `if req.Cfg.Core.Sync && !core.IsLocalQueue(...) then
req.Cfg.Core.Sync = false`. -/
def effectiveCfg (req : PushNotification) : ConfYaml :=
  if req.cfg.core.sync && !IsLocalQueue req.cfg.queue.engine then
    { req.cfg with core := { req.cfg.core with sync := false } }
  else req.cfg

/-- `PushToIOS` (lines 427-513).  `clientErr` abstracts the outcome of
`getApnsClient(req.Cfg, req)` (deterministic in the request, hence constant
across rounds); `push` abstracts `client.Push` per round and token.  A
client-resolution error aborts before any token is attempted
(lines 449-453). -/
def PushToIOS (req : PushNotification) (clientErr : Option String)
    (push : Nat → String → PushResult) : PushOutcome :=
  let cfg := effectiveCfg req
  let maxRetry := effectiveMaxRetry req.retry cfg.ios.maxRetry
  match clientErr with
  | some e =>
    { state := {}, trace := [], abortError := some ("APN server error: " ++ e) }
  | none =>
    let r := pushLoop cfg push maxRetry.toNat 0 req.tokens {}
    { state := r.1, trace := r.2, abortError := none }

/-- Failure count of a trace, round by round: the total number of failed
attempts (each of which increments the iOS error counter) across the rounds
of a trace whose first round is numbered `round`. -/
def traceErrors (push : Nat → String → PushResult) : Nat → List RoundTrace → Nat
  | _, [] => 0
  | round, tr :: rest =>
    tr.tokens.countP (fun t => isFailure (push round t)) + traceErrors push (round + 1) rest

/-! ### Notification builder (`GetIOSNotification`, `iosAlertDictionary`)

The `apns2.Payload` builder methods used by the source are modelled after the
SDK's documented behaviour: `Alert`/`Sound` store an untyped value;
`AlertTitle` and friends upgrade the alert to the SDK's alert dictionary
(discarding a previously stored plain-string alert); `SoundName` and
`SoundVolume` upgrade the sound to the SDK's internal sound dictionary
(discarding any previously stored value that is not already that internal
dictionary, including a `notify.Sound` passed through `Payload.Sound`). -/

/-- The `apns2` alert dictionary (fields touched by `iosAlertDictionary`). -/
structure AlertDict where
  action : String := ""
  actionLocKey : String := ""
  body : String := ""
  launchImage : String := ""
  locArgs : List String := []
  locKey : String := ""
  title : String := ""
  subtitle : String := ""
  summaryArg : String := ""
  summaryArgCount : Int := 0
  titleLocArgs : List String := []
  titleLocKey : String := ""
  deriving DecidableEq

/-- Runtime shape of the untyped `aps.alert` value. -/
inductive PayloadAlert where
  | str (s : String)
  | dict (a : AlertDict)
  deriving DecidableEq

/-- Runtime shape of the untyped `aps.sound` value: a plain string, a
`notify.Sound` value stored via `Payload.Sound`, or the SDK's internal sound
dictionary built by `SoundName`/`SoundVolume`.  `obj` and `aps` serialize to
the same JSON object shape; the SDK distinguishes them only in its
upgrade-in-place logic. -/
inductive PayloadSound where
  | str (s : String)
  | obj (s : Sound)
  | aps (s : Sound)
  deriving DecidableEq

/-- The `apns2.Payload` fields touched by the source (custom data values are
opaque and modelled as strings; map insertion is modelled as append). -/
structure Payload where
  alert : Option PayloadAlert := none
  badge : Option Int := none
  category : Option String := none
  contentAvailable : Bool := false
  mutableContent : Bool := false
  sound : Option PayloadSound := none
  threadID : Option String := none
  urlArgs : Option (List String) := none
  custom : List (String × String) := []
  deriving DecidableEq

/-- The SDK's `aps.alert()` view: the current alert dictionary, or a fresh
one if the alert is absent or a plain string. -/
def Payload.alertDict (p : Payload) : AlertDict :=
  match p.alert with
  | some (.dict a) => a
  | _ => {}

/-- The SDK's upgrade-then-mutate pattern for alert-dictionary fields. -/
def Payload.modAlert (p : Payload) (f : AlertDict → AlertDict) : Payload :=
  { p with alert := some (.dict (f p.alertDict)) }

/-- The SDK's `aps.sound()` view: the current internal sound dictionary, or a
fresh one if the sound is absent, a string, or a `notify.Sound` value. -/
def Payload.soundDict (p : Payload) : Sound :=
  match p.sound with
  | some (.aps s) => s
  | _ => {}

def Payload.Alert (p : Payload) (s : String) : Payload :=
  { p with alert := some (.str s) }

def Payload.AlertTitle (p : Payload) (title : String) : Payload :=
  p.modAlert fun a => { a with title := title }

def Payload.AlertBody (p : Payload) (body : String) : Payload :=
  p.modAlert fun a => { a with body := body }

def Payload.AlertSubtitle (p : Payload) (subtitle : String) : Payload :=
  p.modAlert fun a => { a with subtitle := subtitle }

def Payload.AlertTitleLocKey (p : Payload) (key : String) : Payload :=
  p.modAlert fun a => { a with titleLocKey := key }

def Payload.AlertLocArgs (p : Payload) (args : List String) : Payload :=
  p.modAlert fun a => { a with locArgs := args }

def Payload.AlertTitleLocArgs (p : Payload) (args : List String) : Payload :=
  p.modAlert fun a => { a with titleLocArgs := args }

def Payload.AlertLaunchImage (p : Payload) (image : String) : Payload :=
  p.modAlert fun a => { a with launchImage := image }

def Payload.AlertLocKey (p : Payload) (key : String) : Payload :=
  p.modAlert fun a => { a with locKey := key }

def Payload.AlertAction (p : Payload) (action : String) : Payload :=
  p.modAlert fun a => { a with action := action }

def Payload.AlertActionLocKey (p : Payload) (key : String) : Payload :=
  p.modAlert fun a => { a with actionLocKey := key }

def Payload.AlertSummaryArg (p : Payload) (key : String) : Payload :=
  p.modAlert fun a => { a with summaryArg := key }

def Payload.AlertSummaryArgCount (p : Payload) (count : Int) : Payload :=
  p.modAlert fun a => { a with summaryArgCount := count }

def Payload.Badge (p : Payload) (b : Int) : Payload :=
  { p with badge := some b }

def Payload.Category (p : Payload) (category : String) : Payload :=
  { p with category := some category }

def Payload.ContentAvailable (p : Payload) : Payload :=
  { p with contentAvailable := true }

def Payload.MutableContent (p : Payload) : Payload :=
  { p with mutableContent := true }

def Payload.Sound (p : Payload) (s : PayloadSound) : Payload :=
  { p with sound := some s }

def Payload.SoundName (p : Payload) (name : String) : Payload :=
  { p with sound := some (.aps { p.soundDict with name := name }) }

def Payload.SoundVolume (p : Payload) (volume : Rat) : Payload :=
  { p with sound := some (.aps { p.soundDict with volume := volume }) }

def Payload.ThreadID (p : Payload) (id : String) : Payload :=
  { p with threadID := some id }

def Payload.URLArgs (p : Payload) (args : List String) : Payload :=
  { p with urlArgs := some args }

def Payload.Custom (p : Payload) (k v : String) : Payload :=
  { p with custom := p.custom ++ [(k, v)] }

/-- The `apns2.Notification` fields set by `GetIOSNotification`.
`priority` keeps the SDK constants (`PriorityLow` = 5, `PriorityHigh` = 10,
Go zero value 0 meaning "provider default"). -/
structure Notification where
  apnsID : String := ""
  collapseID : String := ""
  deviceToken : String := ""
  topic : String := ""
  expiration : Option Int := none
  priority : Int := 0
  pushType : String := ""
  payload : Payload := {}
  deriving DecidableEq

/-- `iosAlertDictionary` (lines 251-317): the chain of presence-guarded
alert-dictionary field writes, in source order. -/
def iosAlertDictionary (p0 : Payload) (req : PushNotification) : Payload :=
  let p := p0
  let p := if 0 < req.title.length then p.AlertTitle req.title else p
  let p := if 0 < req.message.length ∧ 0 < req.title.length then p.AlertBody req.message else p
  let p := if 0 < req.alert.title.length then p.AlertTitle req.alert.title else p
  let p := if 0 < req.alert.subtitle.length then p.AlertSubtitle req.alert.subtitle else p
  let p := if 0 < req.alert.titleLocKey.length then p.AlertTitleLocKey req.alert.titleLocKey else p
  let p := if 0 < req.alert.locArgs.length then p.AlertLocArgs req.alert.locArgs else p
  let p := if 0 < req.alert.titleLocArgs.length then p.AlertTitleLocArgs req.alert.titleLocArgs else p
  let p := if 0 < req.alert.body.length then p.AlertBody req.alert.body else p
  let p := if 0 < req.alert.launchImage.length then p.AlertLaunchImage req.alert.launchImage else p
  let p := if 0 < req.alert.locKey.length then p.AlertLocKey req.alert.locKey else p
  let p := if 0 < req.alert.action.length then p.AlertAction req.alert.action else p
  let p := if 0 < req.alert.actionLocKey.length then p.AlertActionLocKey req.alert.actionLocKey else p
  let p := if 0 < req.category.length then p.Category req.category else p
  let p := if 0 < req.alert.summaryArg.length then p.AlertSummaryArg req.alert.summaryArg else p
  let p := if 0 < req.alert.summaryArgCount then p.AlertSummaryArgCount req.alert.summaryArgCount else p
  p

/-- `GetIOSNotification` (lines 322-403). -/
def GetIOSNotification (req : PushNotification) : Notification :=
  let notification : Notification :=
    { apnsID := req.apnsID, topic := req.topic, collapseID := req.collapseID }
  let notification :=
    match req.expiration with
    | some t => { notification with expiration := some t }
    | none => notification
  let notification :=
    if 0 < req.priority.length then
      if req.priority = "normal" then { notification with priority := 5 }
      else if req.priority = "high" then { notification with priority := 10 }
      else notification
    else notification
  let notification :=
    if 0 < req.pushType.length then { notification with pushType := req.pushType }
    else notification
  let p : Payload := {}
  -- add alert object if message length > 0 and title is empty
  let p := if 0 < req.message.length ∧ req.title = "" then p.Alert req.message else p
  -- zero value for clear the badge on the app icon
  let p :=
    match req.badge with
    | some b => if 0 ≤ b then p.Badge b else p
    | none => p
  let p := if req.mutableContent then p.MutableContent else p
  -- type switch on the untyped sound field
  let p :=
    match req.sound with
    | .dict c n v => p.Sound (.obj (mapstructureDecodeSound c n v))
    | .str s => p.Sound (.str s)
    | .snd s => p.Sound (.obj s)
    | _ => p
  let p := if 0 < req.soundName.length then p.SoundName req.soundName else p
  let p := if 0 < req.soundVolume then p.SoundVolume req.soundVolume else p
  let p := if req.contentAvailable then p.ContentAvailable else p
  let p := if 0 < req.urlArgs.length then p.URLArgs req.urlArgs else p
  let p := if 0 < req.threadID.length then p.ThreadID req.threadID else p
  let p := req.data.foldl (fun p kv => p.Custom kv.1 kv.2) p
  let p := iosAlertDictionary p req
  { notification with payload := p }

/-! ### Client factory (`InitAPNSClient`, `newApnsClient`, `newApnsTokenClient`)

File and certificate decoding, base64 decoding and HTTP/2 transport
configuration are external effects of the provider SDK and standard library;
they are abstracted as an oracle record.  Each oracle returns the error of
the call, or `none`/`ok` on success (the decoded key material itself never
influences control flow, except that base64-decoded bytes are fed to the
byte-based certificate loaders). -/

structure ApnsEnv where
  fromP12File : String → String → Option String
  fromPemFile : String → String → Option String
  authKeyFromFile : String → Option String
  base64Decode : String → Except String (List Nat)
  fromP12Bytes : List Nat → String → Option String
  fromPemBytes : List Nat → String → Option String
  authKeyFromBytes : List Nat → Option String
  configureTransports : Option String

/-- The observable configuration of a constructed `apns2.Client`. -/
structure ApnsClient where
  tokenBased : Bool
  production : Bool
  proxied : Bool
  deriving DecidableEq

/-- Go's `filepath.Ext`: scan backwards, return the suffix from the final dot
of the final path element, or the empty string. -/
def filepathExtAux : List Char → List Char → String
  | [], _ => ""
  | c :: rest, acc =>
    if c = '/' then ""
    else if c = '.' then String.mk ('.' :: acc)
    else filepathExtAux rest (c :: acc)

def filepathExt (path : String) : String :=
  filepathExtAux path.data.reverse []

/-- The request-override-else-deployment-default resolution used for each
credential field (lines 63-91). -/
def resolveField (override dflt : String) : String :=
  if override = "" then dflt else override

/-- `newApnsClient` (lines 175-213): a certificate-based client for the
configured environment; with a proxy configured, the transport is replaced
and HTTP/2-configured, which can fail and then returns `(nil, err)`. -/
def newApnsClient (cfg : ConfYaml) (env : ApnsEnv) : Option ApnsClient × Option String :=
  let client : ApnsClient :=
    { tokenBased := false, production := cfg.ios.production, proxied := false }
  if cfg.core.httpProxy = "" then (some client, none)
  else
    match env.configureTransports with
    | some e => (none, some e)
    | none => (some { client with proxied := true }, none)

/-- `newApnsTokenClient` (lines 215-244), same shape as `newApnsClient`. -/
def newApnsTokenClient (cfg : ConfYaml) (env : ApnsEnv) : Option ApnsClient × Option String :=
  let client : ApnsClient :=
    { tokenBased := true, production := cfg.ios.production, proxied := false }
  if cfg.core.httpProxy = "" then (some client, none)
  else
    match env.configureTransports with
    | some e => (none, some e)
    | none => (some { client with proxied := true }, none)

/-- Result of `InitAPNSClient`: a returned client (possibly the untouched
nil global when the provider is disabled), a returned error, or a nil-pointer
dereference (runtime panic). -/
inductive InitResult where
  | ok (c : Option ApnsClient)
  | err (msg : String)
  | nilPanic
  deriving DecidableEq

/-- Key-material resolution of `InitAPNSClient` (lines 93-136): pick the
decoder by file extension, or by the key-type field after base64-decoding;
report the first error; return the effective extension on success. -/
def resolveKeyMaterial (env : ApnsEnv)
    (key_file_path key_base64_string key_type_string key_password : String) :
    Except String String :=
  if key_file_path ≠ "" then
    let ext := filepathExt key_file_path
    let e : Option String :=
      if ext = ".p12" then env.fromP12File key_file_path key_password
      else if ext = ".pem" then env.fromPemFile key_file_path key_password
      else if ext = ".p8" then env.authKeyFromFile key_file_path
      else some "wrong certificate key extension"
    match e with
    | some msg => .error msg
    | none => .ok ext
  else if key_base64_string ≠ "" then
    let ext := "." ++ key_type_string
    match env.base64Decode key_base64_string with
    | .error msg => .error msg
    | .ok key =>
      let e : Option String :=
        if ext = ".p12" then env.fromP12Bytes key key_password
        else if ext = ".pem" then env.fromPemBytes key key_password
        else if ext = ".p8" then env.authKeyFromBytes key
        else some "wrong certificate key type"
      match e with
      | some msg => .error msg
      | none => .ok ext
  else .ok ""

/-- Tail of `InitAPNSClient` (lines 152-165) applied to the constructor's
`(client, err)` pair: the global `ApnsClient` is assigned the constructed
client, then `ApnsClient.HTTPClient.Transport` is read (a nil-pointer
dereference when the client is nil) to configure connection health checks,
and only afterwards is the construction error checked and returned. -/
def finishInit : Option ApnsClient × Option String → InitResult
  | (none, _) => .nilPanic
  | (some _, some e) => .err e
  | (some c, none) => .ok (some c)

/-- `InitAPNSClient` (lines 56-173).  `globalClient` is the package-level
`ApnsClient` variable, returned untouched when the iOS provider is
disabled. -/
def InitAPNSClient (cfg : ConfYaml) (env : ApnsEnv) (globalClient : Option ApnsClient)
    (key_path key_base64 key_type password key_id team_id : String) : InitResult :=
  if cfg.ios.enabled then
    let key_file_path := resolveField key_path cfg.ios.keyPath
    let key_base64_string := resolveField key_base64 cfg.ios.keyBase64
    let key_password := resolveField password cfg.ios.password
    let key_type_string := resolveField key_type cfg.ios.keyType
    let key_id_string := resolveField key_id cfg.ios.keyID
    let team_id_string := resolveField team_id cfg.ios.teamID
    match resolveKeyMaterial env key_file_path key_base64_string key_type_string key_password with
    | .error e => .err e
    | .ok ext =>
      if ext = ".p8" then
        if key_id_string = "" ∨ team_id_string = "" then
          .err "You should provide ios.KeyID and ios.TeamID for P8 token"
        else finishInit (newApnsTokenClient cfg env)
      else finishInit (newApnsClient cfg env)
  else .ok globalClient

/-- The three recognized certificate key extensions. -/
def certExts : List String := [".p12", ".pem", ".p8"]

/-- Modelled from the spec (the claimed error condition of the factory, to be
compared with `InitAPNSClient`): a configuration error occurs exactly when
the resolved key file path has an extension outside the recognized set, or
the resolved key type (for base64 material) is outside that set, or
base64/key decoding fails, or the key material is token-style (`.p8`) and the
resolved key id or team id is empty. -/
def specConfigErrorCond (cfg : ConfYaml) (env : ApnsEnv)
    (key_path key_base64 key_type password key_id team_id : String) : Prop :=
  let path := resolveField key_path cfg.ios.keyPath
  let b64 := resolveField key_base64 cfg.ios.keyBase64
  let pwd := resolveField password cfg.ios.password
  let kty := "." ++ resolveField key_type cfg.ios.keyType
  let kid := resolveField key_id cfg.ios.keyID
  let tid := resolveField team_id cfg.ios.teamID
  (path ≠ "" ∧ filepathExt path ∉ certExts)
    ∨ (path = "" ∧ b64 ≠ "" ∧ kty ∉ certExts)
    ∨ (path ≠ "" ∧
        ((filepathExt path = ".p12" ∧ (env.fromP12File path pwd).isSome)
          ∨ (filepathExt path = ".pem" ∧ (env.fromPemFile path pwd).isSome)
          ∨ (filepathExt path = ".p8" ∧ (env.authKeyFromFile path).isSome)))
    ∨ (path = "" ∧ b64 ≠ "" ∧
        (match env.base64Decode b64 with
         | .error _ => True
         | .ok key =>
           (kty = ".p12" ∧ (env.fromP12Bytes key pwd).isSome)
             ∨ (kty = ".pem" ∧ (env.fromPemBytes key pwd).isSome)
             ∨ (kty = ".p8" ∧ (env.authKeyFromBytes key).isSome)))
    ∨ (((path ≠ "" ∧ filepathExt path = ".p8") ∨ (path = "" ∧ b64 ≠ "" ∧ kty = ".p8"))
        ∧ (kid = "" ∨ tid = ""))

/-! ### Concrete scenario inputs used by counterexamples and witnesses -/

/-- A request whose only configured pieces are an enabled iOS section with
deployment retry cap 3 and one device token. -/
def noResponseReq : PushNotification :=
  { cfg := { ios := { enabled := true, maxRetry := 3 } }, tokens := ["tokenA"] }

/-- A provider oracle returning an error with no response for every attempt. -/
def noResponsePush : Nat → String → PushResult :=
  fun _ _ => { res := none, err := some "EOF" }

/-- The three-token scenario of the spec: token a fails 503 (server class),
token b fails 400 (client class), token c succeeds; every later round
succeeds. -/
def retryScenarioReq : PushNotification :=
  { cfg := { ios := { enabled := true, maxRetry := 3 } }, tokens := ["a", "b", "c"] }

def retryScenarioPush : Nat → String → PushResult := fun round t =>
  if round = 0 then
    if t = "a" then { res := some { statusCode := 503, reason := "InternalServerError" } }
    else if t = "b" then { res := some { statusCode := 400, reason := "BadDeviceToken" } }
    else { res := some { statusCode := 200 } }
  else { res := some { statusCode := 200 } }

/-- A deployment configured synchronous, with a feedback URL, on a non-local
queue engine. -/
def syncNonLocalReq : PushNotification :=
  { cfg :=
      { core := { sync := true, feedbackURL := "https://feedback.example/hook" },
        ios := { enabled := true, maxRetry := 1 },
        queue := { engine := "redis" } },
    tokens := ["x"] }

/-- A provider oracle failing every attempt with a server-class status. -/
def serverErrorPush : Nat → String → PushResult :=
  fun _ _ => { res := some { statusCode := 503, reason := "ServiceUnavailable" } }

/-- A request base for the notification-builder scenarios: one token and
nothing else set. -/
def builderBaseReq : PushNotification :=
  { tokens := ["t1"] }

/-- A deployment with the iOS provider enabled and an HTTP proxy configured. -/
def proxyCfg : ConfYaml :=
  { core := { httpProxy := "http://proxy.internal:3128" }, ios := { enabled := true } }

/-- An oracle whose HTTP/2 transport configuration fails; all key decoding
succeeds. -/
def badTransportEnv : ApnsEnv :=
  { fromP12File := fun _ _ => none
    fromPemFile := fun _ _ => none
    authKeyFromFile := fun _ => none
    base64Decode := fun _ => .ok []
    fromP12Bytes := fun _ _ => none
    fromPemBytes := fun _ _ => none
    authKeyFromBytes := fun _ => none
    configureTransports := some "http2: could not configure transport" }

/-- An oracle where every external call succeeds. -/
def okEnv : ApnsEnv :=
  { fromP12File := fun _ _ => none
    fromPemFile := fun _ _ => none
    authKeyFromFile := fun _ => none
    base64Decode := fun _ => .ok []
    fromP12Bytes := fun _ _ => none
    fromPemBytes := fun _ _ => none
    authKeyFromBytes := fun _ => none
    configureTransports := none }

/-! ## Lemmas about the per-token worker -/

theorem handleToken_snd (cfg : ConfYaml) (t : String) (r : PushResult) (st : DispatchState) :
    (handleToken cfg t r st).2 = (isFailure r && isRetryable r) := rfl

/-- A retryable result (non-nil response with status at least 500) is in
particular a failure (its status differs from 200). -/
theorem failure_and_retryable (r : PushResult) :
    (isFailure r && isRetryable r) = isRetryable r := by
  unfold isFailure isRetryable
  cases hres : r.res with
  | none => simp
  | some resp =>
    by_cases h : (500 : Int) ≤ resp.statusCode
    · have : resp.statusCode ≠ 200 := by omega
      simp [h, this]
    · simp [h]

theorem handleToken_iosError (cfg : ConfYaml) (t : String) (r : PushResult)
    (st : DispatchState) :
    (handleToken cfg t r st).1.iosError
      = st.iosError + (if isFailure r then 1 else 0) := by
  by_cases hf : isFailure r <;> by_cases hs : isSent r <;>
      by_cases hy : cfg.core.sync <;> by_cases hu : cfg.core.feedbackURL = "" <;>
    simp [handleToken, hf, hs, hy, hu]

theorem handleToken_iosSuccess (cfg : ConfYaml) (t : String) (r : PushResult)
    (st : DispatchState) :
    (handleToken cfg t r st).1.iosSuccess
      = st.iosSuccess + (if isSent r then 1 else 0) := by
  by_cases hf : isFailure r <;> by_cases hs : isSent r <;>
      by_cases hy : cfg.core.sync <;> by_cases hu : cfg.core.feedbackURL = "" <;>
    simp [handleToken, hf, hs, hy, hu]

theorem handleToken_failedLogs (cfg : ConfYaml) (t : String) (r : PushResult)
    (st : DispatchState) :
    (handleToken cfg t r st).1.failedLogs
      = st.failedLogs
          ++ (if isFailure r then [⟨t, some (errMessage r)⟩] else ([] : List LogEntry)) := by
  by_cases hf : isFailure r <;> by_cases hs : isSent r <;>
      by_cases hy : cfg.core.sync <;> by_cases hu : cfg.core.feedbackURL = "" <;>
    simp [handleToken, hf, hs, hy, hu]

theorem handleToken_syncLogs (cfg : ConfYaml) (t : String) (r : PushResult)
    (st : DispatchState) :
    (handleToken cfg t r st).1.syncLogs
      = st.syncLogs
          ++ (if isFailure r ∧ cfg.core.sync = true then [⟨t, some (errMessage r)⟩]
              else ([] : List LogEntry)) := by
  by_cases hf : isFailure r <;> by_cases hs : isSent r <;>
      by_cases hy : cfg.core.sync <;> by_cases hu : cfg.core.feedbackURL = "" <;>
    simp [handleToken, hf, hs, hy, hu]

theorem handleToken_feedback (cfg : ConfYaml) (t : String) (r : PushResult)
    (st : DispatchState) :
    (handleToken cfg t r st).1.feedback
      = st.feedback
          ++ (if isFailure r ∧ cfg.core.sync = false ∧ cfg.core.feedbackURL ≠ "" then
                [⟨t, some (errMessage r)⟩]
              else ([] : List LogEntry)) := by
  by_cases hf : isFailure r <;> by_cases hs : isSent r <;>
      by_cases hy : cfg.core.sync <;> by_cases hu : cfg.core.feedbackURL = "" <;>
    simp [handleToken, hf, hs, hy, hu]

/-! ## Lemmas about one dispatch round -/

theorem dispatchRound_retrySet (cfg : ConfYaml) (push : String → PushResult) :
    ∀ (tokens : List String) (st : DispatchState),
      (dispatchRound cfg push tokens st).2
        = tokens.filter (fun t => isRetryable (push t))
  | [], _ => rfl
  | t :: ts, st => by
    simp only [dispatchRound, handleToken_snd, failure_and_retryable,
      dispatchRound_retrySet cfg push ts, List.filter_cons]

theorem dispatchRound_iosError (cfg : ConfYaml) (push : String → PushResult) :
    ∀ (tokens : List String) (st : DispatchState),
      (dispatchRound cfg push tokens st).1.iosError
        = st.iosError + tokens.countP (fun t => isFailure (push t))
  | [], _ => by simp [dispatchRound]
  | t :: ts, st => by
    simp only [dispatchRound, dispatchRound_iosError cfg push ts,
      handleToken_iosError, List.countP_cons]
    split <;> omega

theorem dispatchRound_iosSuccess (cfg : ConfYaml) (push : String → PushResult) :
    ∀ (tokens : List String) (st : DispatchState),
      (dispatchRound cfg push tokens st).1.iosSuccess
        = st.iosSuccess + tokens.countP (fun t => isSent (push t))
  | [], _ => by simp [dispatchRound]
  | t :: ts, st => by
    simp only [dispatchRound, dispatchRound_iosSuccess cfg push ts,
      handleToken_iosSuccess, List.countP_cons]
    split <;> omega

theorem dispatchRound_failedLogs (cfg : ConfYaml) (push : String → PushResult) :
    ∀ (tokens : List String) (st : DispatchState),
      (dispatchRound cfg push tokens st).1.failedLogs
        = st.failedLogs
            ++ (tokens.filter (fun t => isFailure (push t))).map
                 (fun t => ⟨t, some (errMessage (push t))⟩)
  | [], _ => by simp [dispatchRound]
  | t :: ts, st => by
    simp only [dispatchRound, dispatchRound_failedLogs cfg push ts,
      handleToken_failedLogs, List.filter_cons]
    by_cases h : isFailure (push t) <;> simp [h]

theorem dispatchRound_syncLogs (cfg : ConfYaml) (push : String → PushResult)
    (hsync : cfg.core.sync = false) :
    ∀ (tokens : List String) (st : DispatchState),
      (dispatchRound cfg push tokens st).1.syncLogs = st.syncLogs
  | [], _ => by simp [dispatchRound]
  | t :: ts, st => by
    simp [dispatchRound, dispatchRound_syncLogs cfg push hsync ts,
      handleToken_syncLogs, hsync]

theorem dispatchRound_feedback (cfg : ConfYaml) (push : String → PushResult)
    (hsync : cfg.core.sync = false) (hurl : cfg.core.feedbackURL ≠ "") :
    ∀ (tokens : List String) (st : DispatchState),
      (dispatchRound cfg push tokens st).1.feedback
        = st.feedback
            ++ (tokens.filter (fun t => isFailure (push t))).map
                 (fun t => ⟨t, some (errMessage (push t))⟩)
  | [], _ => by simp [dispatchRound]
  | t :: ts, st => by
    simp only [dispatchRound, dispatchRound_feedback cfg push hsync hurl ts,
      handleToken_feedback, hsync, hurl, List.filter_cons]
    by_cases h : isFailure (push t) <;> simp [h, hurl]

/-! ## Lemmas about the retry loop

Trace entries are accessed with `List.getD` (default `⟨[], []⟩`) to keep the
statements free of dependent index proofs. -/

/-! ## Lemmas about the retry loop

Trace entries are accessed with `List.getD` (default `⟨[], []⟩`) to keep the
statements free of dependent index proofs. -/

theorem pushLoop_succ_of_empty (cfg : ConfYaml) (push : Nat → String → PushResult)
    (budget round : Nat) (tokens : List String) (st : DispatchState)
    (h : (dispatchRound cfg (push round) tokens st).2.isEmpty = true) :
    pushLoop cfg push (budget + 1) round tokens st
      = ((dispatchRound cfg (push round) tokens st).1,
         [⟨tokens, (dispatchRound cfg (push round) tokens st).2⟩]) := by
  simp only [pushLoop, h, if_true]

theorem pushLoop_succ_of_nonempty (cfg : ConfYaml) (push : Nat → String → PushResult)
    (budget round : Nat) (tokens : List String) (st : DispatchState)
    (h : (dispatchRound cfg (push round) tokens st).2.isEmpty = false) :
    pushLoop cfg push (budget + 1) round tokens st
      = ((pushLoop cfg push budget (round + 1) (dispatchRound cfg (push round) tokens st).2
            (dispatchRound cfg (push round) tokens st).1).1,
         ⟨tokens, (dispatchRound cfg (push round) tokens st).2⟩
           :: (pushLoop cfg push budget (round + 1) (dispatchRound cfg (push round) tokens st).2
                (dispatchRound cfg (push round) tokens st).1).2) := by
  simp only [pushLoop, h, Bool.false_eq_true, if_false]

theorem pushLoop_trace_ne_nil (cfg : ConfYaml) (push : Nat → String → PushResult)
    (budget round : Nat) (tokens : List String) (st : DispatchState) :
    (pushLoop cfg push budget round tokens st).2 ≠ [] := by
  cases budget with
  | zero => simp [pushLoop]
  | succ b =>
    by_cases hemp : (dispatchRound cfg (push round) tokens st).2.isEmpty
    · rw [pushLoop_succ_of_empty cfg push b round tokens st hemp]
      simp
    · rw [pushLoop_succ_of_nonempty cfg push b round tokens st (by simpa using hemp)]
      simp

theorem pushLoop_trace_length (cfg : ConfYaml) (push : Nat → String → PushResult) :
    ∀ (budget round : Nat) (tokens : List String) (st : DispatchState),
      (pushLoop cfg push budget round tokens st).2.length ≤ budget + 1
  | 0, _, _, _ => by simp [pushLoop]
  | budget + 1, round, tokens, st => by
    by_cases hemp : (dispatchRound cfg (push round) tokens st).2.isEmpty
    · rw [pushLoop_succ_of_empty cfg push budget round tokens st hemp]
      simp
    · rw [pushLoop_succ_of_nonempty cfg push budget round tokens st (by simpa using hemp)]
      have h := pushLoop_trace_length cfg push budget (round + 1)
        (dispatchRound cfg (push round) tokens st).2
        (dispatchRound cfg (push round) tokens st).1
      simpa using Nat.succ_le_succ h

theorem pushLoop_getD_zero (cfg : ConfYaml) (push : Nat → String → PushResult)
    (budget round : Nat) (tokens : List String) (st : DispatchState) :
    (pushLoop cfg push budget round tokens st).2.getD 0 ⟨[], []⟩
      = ⟨tokens, (dispatchRound cfg (push round) tokens st).2⟩ := by
  cases budget with
  | zero => rfl
  | succ b =>
    by_cases hemp : (dispatchRound cfg (push round) tokens st).2.isEmpty
    · rw [pushLoop_succ_of_empty cfg push b round tokens st hemp]
      rfl
    · rw [pushLoop_succ_of_nonempty cfg push b round tokens st (by simpa using hemp)]
      rfl

theorem pushLoop_getD_retrySet (cfg : ConfYaml) (push : Nat → String → PushResult) :
    ∀ (budget round : Nat) (tokens : List String) (st : DispatchState) (i : Nat),
      i < (pushLoop cfg push budget round tokens st).2.length →
      ((pushLoop cfg push budget round tokens st).2.getD i ⟨[], []⟩).retrySet
        = ((pushLoop cfg push budget round tokens st).2.getD i ⟨[], []⟩).tokens.filter
            (fun t => isRetryable (push (round + i) t))
  | 0, round, tokens, st, i, hi => by
    have hi0 : i = 0 := by simpa [pushLoop] using hi
    subst hi0
    simp [pushLoop, dispatchRound_retrySet]
  | budget + 1, round, tokens, st, i, hi => by
    by_cases hemp : (dispatchRound cfg (push round) tokens st).2.isEmpty
    · rw [pushLoop_succ_of_empty cfg push budget round tokens st hemp] at hi ⊢
      have hi0 : i = 0 := by simpa using hi
      subst hi0
      simp [dispatchRound_retrySet]
    · rw [pushLoop_succ_of_nonempty cfg push budget round tokens st (by simpa using hemp)]
        at hi ⊢
      cases i with
      | zero => simp [dispatchRound_retrySet]
      | succ i =>
        have hi' : i < (pushLoop cfg push budget (round + 1)
            (dispatchRound cfg (push round) tokens st).2
            (dispatchRound cfg (push round) tokens st).1).2.length := by
          simpa using hi
        have hrec := pushLoop_getD_retrySet cfg push budget (round + 1)
          (dispatchRound cfg (push round) tokens st).2
          (dispatchRound cfg (push round) tokens st).1 i hi'
        have harith : round + 1 + i = round + (i + 1) := by omega
        simpa [harith] using hrec

theorem pushLoop_chain (cfg : ConfYaml) (push : Nat → String → PushResult) :
    ∀ (budget round : Nat) (tokens : List String) (st : DispatchState) (i : Nat),
      i + 1 < (pushLoop cfg push budget round tokens st).2.length →
      ((pushLoop cfg push budget round tokens st).2.getD (i + 1) ⟨[], []⟩).tokens
        = ((pushLoop cfg push budget round tokens st).2.getD i ⟨[], []⟩).retrySet
  | 0, round, tokens, st, i, hi => by
    simp [pushLoop] at hi
  | budget + 1, round, tokens, st, i, hi => by
    by_cases hemp : (dispatchRound cfg (push round) tokens st).2.isEmpty
    · rw [pushLoop_succ_of_empty cfg push budget round tokens st hemp] at hi
      simp at hi
    · rw [pushLoop_succ_of_nonempty cfg push budget round tokens st (by simpa using hemp)]
        at hi ⊢
      cases i with
      | zero =>
        have h0 := pushLoop_getD_zero cfg push budget (round + 1)
          (dispatchRound cfg (push round) tokens st).2
          (dispatchRound cfg (push round) tokens st).1
        simpa using congrArg RoundTrace.tokens h0
      | succ i =>
        have hi' : i + 1 < (pushLoop cfg push budget (round + 1)
            (dispatchRound cfg (push round) tokens st).2
            (dispatchRound cfg (push round) tokens st).1).2.length := by
          simpa using hi
        have hrec := pushLoop_chain cfg push budget (round + 1)
          (dispatchRound cfg (push round) tokens st).2
          (dispatchRound cfg (push round) tokens st).1 i hi'
        simpa using hrec

theorem pushLoop_mid_retrySet_ne_nil (cfg : ConfYaml) (push : Nat → String → PushResult) :
    ∀ (budget round : Nat) (tokens : List String) (st : DispatchState) (i : Nat),
      i + 1 < (pushLoop cfg push budget round tokens st).2.length →
      ((pushLoop cfg push budget round tokens st).2.getD i ⟨[], []⟩).retrySet ≠ []
  | 0, round, tokens, st, i, hi => by
    simp [pushLoop] at hi
  | budget + 1, round, tokens, st, i, hi => by
    by_cases hemp : (dispatchRound cfg (push round) tokens st).2.isEmpty
    · rw [pushLoop_succ_of_empty cfg push budget round tokens st hemp] at hi
      simp at hi
    · rw [pushLoop_succ_of_nonempty cfg push budget round tokens st (by simpa using hemp)]
        at hi ⊢
      cases i with
      | zero =>
        simpa using fun h => hemp (by simp [h])
      | succ i =>
        have hi' : i + 1 < (pushLoop cfg push budget (round + 1)
            (dispatchRound cfg (push round) tokens st).2
            (dispatchRound cfg (push round) tokens st).1).2.length := by
          simpa using hi
        have hrec := pushLoop_mid_retrySet_ne_nil cfg push budget (round + 1)
          (dispatchRound cfg (push round) tokens st).2
          (dispatchRound cfg (push round) tokens st).1 i hi'
        simpa using hrec

theorem pushLoop_last (cfg : ConfYaml) (push : Nat → String → PushResult) :
    ∀ (budget round : Nat) (tokens : List String) (st : DispatchState),
      ((pushLoop cfg push budget round tokens st).2.getD
          ((pushLoop cfg push budget round tokens st).2.length - 1) ⟨[], []⟩).retrySet = []
        ∨ (pushLoop cfg push budget round tokens st).2.length = budget + 1
  | 0, round, tokens, st => by
    right
    simp [pushLoop]
  | budget + 1, round, tokens, st => by
    by_cases hemp : (dispatchRound cfg (push round) tokens st).2.isEmpty
    · left
      rw [pushLoop_succ_of_empty cfg push budget round tokens st hemp]
      simpa using hemp
    · rw [pushLoop_succ_of_nonempty cfg push budget round tokens st (by simpa using hemp)]
      have hne := pushLoop_trace_ne_nil cfg push budget (round + 1)
        (dispatchRound cfg (push round) tokens st).2
        (dispatchRound cfg (push round) tokens st).1
      have hlen : 0 < (pushLoop cfg push budget (round + 1)
          (dispatchRound cfg (push round) tokens st).2
          (dispatchRound cfg (push round) tokens st).1).2.length :=
        List.length_pos.mpr hne
      rcases pushLoop_last cfg push budget (round + 1)
          (dispatchRound cfg (push round) tokens st).2
          (dispatchRound cfg (push round) tokens st).1 with h | h
      · left
        have harith : (pushLoop cfg push budget (round + 1)
            (dispatchRound cfg (push round) tokens st).2
            (dispatchRound cfg (push round) tokens st).1).2.length + 1 - 1
            = ((pushLoop cfg push budget (round + 1)
                (dispatchRound cfg (push round) tokens st).2
                (dispatchRound cfg (push round) tokens st).1).2.length - 1) + 1 := by
          omega
        simpa [harith] using h
      · right
        simp [h]

/-- Every retry set is drawn from the round's own token list. -/
theorem pushLoop_retrySet_subset (cfg : ConfYaml) (push : Nat → String → PushResult)
    (budget round : Nat) (tokens : List String) (st : DispatchState) (i : Nat)
    (hi : i < (pushLoop cfg push budget round tokens st).2.length) (t : String)
    (hmem : t ∈ ((pushLoop cfg push budget round tokens st).2.getD i ⟨[], []⟩).retrySet) :
    t ∈ ((pushLoop cfg push budget round tokens st).2.getD i ⟨[], []⟩).tokens := by
  rw [pushLoop_getD_retrySet cfg push budget round tokens st i hi] at hmem
  exact List.mem_of_mem_filter hmem

/-- A token absent from the retry set of round `i` is absent from the token
list of every later round. -/
theorem pushLoop_absent (cfg : ConfYaml) (push : Nat → String → PushResult)
    (budget round : Nat) (tokens : List String) (st : DispatchState) (t : String) :
    ∀ (j : Nat), j < (pushLoop cfg push budget round tokens st).2.length →
      ∀ (i : Nat), i < j →
        t ∉ ((pushLoop cfg push budget round tokens st).2.getD i ⟨[], []⟩).retrySet →
        t ∉ ((pushLoop cfg push budget round tokens st).2.getD j ⟨[], []⟩).tokens := by
  intro j
  induction j with
  | zero => intro _ i hij; omega
  | succ j ih =>
    intro hj i hij hnot
    have hj' : j < (pushLoop cfg push budget round tokens st).2.length := by omega
    have hchain := pushLoop_chain cfg push budget round tokens st j hj
    rcases Nat.lt_or_ge i j with h | h
    · have htok : t ∉ ((pushLoop cfg push budget round tokens st).2.getD j ⟨[], []⟩).tokens :=
        ih hj' i h hnot
      rw [hchain]
      intro hmem
      exact htok (pushLoop_retrySet_subset cfg push budget round tokens st j hj' t hmem)
    · have hij' : i = j := by omega
      subst hij'
      rw [hchain]
      exact hnot

theorem pushLoop_syncLogs (cfg : ConfYaml) (push : Nat → String → PushResult)
    (hsync : cfg.core.sync = false) :
    ∀ (budget round : Nat) (tokens : List String) (st : DispatchState),
      (pushLoop cfg push budget round tokens st).1.syncLogs = st.syncLogs
  | 0, round, tokens, st => by
    simp [pushLoop, dispatchRound_syncLogs cfg (push round) hsync]
  | budget + 1, round, tokens, st => by
    by_cases hemp : (dispatchRound cfg (push round) tokens st).2.isEmpty
    · rw [pushLoop_succ_of_empty cfg push budget round tokens st hemp]
      exact dispatchRound_syncLogs cfg (push round) hsync tokens st
    · rw [pushLoop_succ_of_nonempty cfg push budget round tokens st (by simpa using hemp)]
      rw [pushLoop_syncLogs cfg push hsync budget (round + 1)
        (dispatchRound cfg (push round) tokens st).2
        (dispatchRound cfg (push round) tokens st).1]
      exact dispatchRound_syncLogs cfg (push round) hsync tokens st

theorem pushLoop_feedback_eq_failedLogs (cfg : ConfYaml) (push : Nat → String → PushResult)
    (hsync : cfg.core.sync = false) (hurl : cfg.core.feedbackURL ≠ "") :
    ∀ (budget round : Nat) (tokens : List String) (st : DispatchState),
      st.feedback = st.failedLogs →
      (pushLoop cfg push budget round tokens st).1.feedback
        = (pushLoop cfg push budget round tokens st).1.failedLogs
  | 0, round, tokens, st, heq => by
    simp [pushLoop, dispatchRound_feedback cfg (push round) hsync hurl,
      dispatchRound_failedLogs cfg (push round), heq]
  | budget + 1, round, tokens, st, heq => by
    have hstep : (dispatchRound cfg (push round) tokens st).1.feedback
        = (dispatchRound cfg (push round) tokens st).1.failedLogs := by
      rw [dispatchRound_feedback cfg (push round) hsync hurl,
        dispatchRound_failedLogs cfg (push round), heq]
    by_cases hemp : (dispatchRound cfg (push round) tokens st).2.isEmpty
    · rw [pushLoop_succ_of_empty cfg push budget round tokens st hemp]
      exact hstep
    · rw [pushLoop_succ_of_nonempty cfg push budget round tokens st (by simpa using hemp)]
      exact pushLoop_feedback_eq_failedLogs cfg push hsync hurl budget (round + 1)
        (dispatchRound cfg (push round) tokens st).2
        (dispatchRound cfg (push round) tokens st).1 hstep

theorem pushLoop_iosError (cfg : ConfYaml) (push : Nat → String → PushResult) :
    ∀ (budget round : Nat) (tokens : List String) (st : DispatchState),
      (pushLoop cfg push budget round tokens st).1.iosError
        = st.iosError + traceErrors push round (pushLoop cfg push budget round tokens st).2
  | 0, round, tokens, st => by
    simp [pushLoop, traceErrors, dispatchRound_iosError cfg (push round)]
  | budget + 1, round, tokens, st => by
    by_cases hemp : (dispatchRound cfg (push round) tokens st).2.isEmpty
    · rw [pushLoop_succ_of_empty cfg push budget round tokens st hemp]
      simp [traceErrors, dispatchRound_iosError cfg (push round)]
    · rw [pushLoop_succ_of_nonempty cfg push budget round tokens st (by simpa using hemp)]
      rw [pushLoop_iosError cfg push budget (round + 1)
        (dispatchRound cfg (push round) tokens st).2
        (dispatchRound cfg (push round) tokens st).1]
      simp [traceErrors, dispatchRound_iosError cfg (push round)]
      omega

/-- The failure log only grows across a loop. -/
theorem pushLoop_failedLogs_mono (cfg : ConfYaml) (push : Nat → String → PushResult) :
    ∀ (budget round : Nat) (tokens : List String) (st : DispatchState) (e : LogEntry),
      e ∈ st.failedLogs → e ∈ (pushLoop cfg push budget round tokens st).1.failedLogs
  | 0, round, tokens, st, e, he => by
    simp [pushLoop, dispatchRound_failedLogs cfg (push round)]
    exact Or.inl he
  | budget + 1, round, tokens, st, e, he => by
    have hstep : e ∈ (dispatchRound cfg (push round) tokens st).1.failedLogs := by
      rw [dispatchRound_failedLogs cfg (push round)]
      exact List.mem_append_left _ he
    by_cases hemp : (dispatchRound cfg (push round) tokens st).2.isEmpty
    · rw [pushLoop_succ_of_empty cfg push budget round tokens st hemp]
      exact hstep
    · rw [pushLoop_succ_of_nonempty cfg push budget round tokens st (by simpa using hemp)]
      exact pushLoop_failedLogs_mono cfg push budget (round + 1)
        (dispatchRound cfg (push round) tokens st).2
        (dispatchRound cfg (push round) tokens st).1 e hstep

/-- Every failed attempt of every round leaves its entry in the failure
log. -/
theorem pushLoop_failure_logged (cfg : ConfYaml) (push : Nat → String → PushResult) :
    ∀ (budget round : Nat) (tokens : List String) (st : DispatchState) (i : Nat),
      i < (pushLoop cfg push budget round tokens st).2.length →
      ∀ (t : String),
        t ∈ ((pushLoop cfg push budget round tokens st).2.getD i ⟨[], []⟩).tokens →
        isFailure (push (round + i) t) = true →
        (⟨t, some (errMessage (push (round + i) t))⟩ : LogEntry)
          ∈ (pushLoop cfg push budget round tokens st).1.failedLogs
  | 0, round, tokens, st, i, hi, t, htok, hfail => by
    have hi0 : i = 0 := by simpa [pushLoop] using hi
    subst hi0
    simp only [pushLoop, List.getD_cons_zero] at htok ⊢
    rw [dispatchRound_failedLogs cfg (push round)]
    refine List.mem_append_right _ ?_
    simp only [Nat.add_zero] at hfail ⊢
    exact List.mem_map_of_mem _ (List.mem_filter.mpr ⟨htok, hfail⟩)
  | budget + 1, round, tokens, st, i, hi, t, htok, hfail => by
    by_cases hemp : (dispatchRound cfg (push round) tokens st).2.isEmpty
    · rw [pushLoop_succ_of_empty cfg push budget round tokens st hemp] at hi htok ⊢
      have hi0 : i = 0 := by simpa using hi
      subst hi0
      simp only [List.getD_cons_zero] at htok
      rw [dispatchRound_failedLogs cfg (push round)]
      refine List.mem_append_right _ ?_
      simp only [Nat.add_zero] at hfail ⊢
      exact List.mem_map_of_mem _ (List.mem_filter.mpr ⟨htok, hfail⟩)
    · rw [pushLoop_succ_of_nonempty cfg push budget round tokens st (by simpa using hemp)]
        at hi htok ⊢
      cases i with
      | zero =>
        simp only [List.getD_cons_zero] at htok
        have hstep : (⟨t, some (errMessage (push (round + 0) t))⟩ : LogEntry)
            ∈ (dispatchRound cfg (push round) tokens st).1.failedLogs := by
          rw [dispatchRound_failedLogs cfg (push round)]
          refine List.mem_append_right _ ?_
          simp only [Nat.add_zero] at hfail ⊢
          exact List.mem_map_of_mem _ (List.mem_filter.mpr ⟨htok, hfail⟩)
        exact pushLoop_failedLogs_mono cfg push budget (round + 1)
          (dispatchRound cfg (push round) tokens st).2
          (dispatchRound cfg (push round) tokens st).1 _ hstep
      | succ i =>
        have hi' : i < (pushLoop cfg push budget (round + 1)
            (dispatchRound cfg (push round) tokens st).2
            (dispatchRound cfg (push round) tokens st).1).2.length := by
          simpa using hi
        have htok' : t ∈ ((pushLoop cfg push budget (round + 1)
            (dispatchRound cfg (push round) tokens st).2
            (dispatchRound cfg (push round) tokens st).1).2.getD i ⟨[], []⟩).tokens := by
          simpa using htok
        have harith : round + 1 + i = round + (i + 1) := by omega
        have hrec := pushLoop_failure_logged cfg push budget (round + 1)
          (dispatchRound cfg (push round) tokens st).2
          (dispatchRound cfg (push round) tokens st).1 i hi' t htok'
          (by rw [harith]; exact hfail)
        rw [harith] at hrec
        exact hrec

/-! ## Bridging lemmas between `PushToIOS` and the loop -/

theorem effectiveCfg_ios (req : PushNotification) :
    (effectiveCfg req).ios = req.cfg.ios := by
  unfold effectiveCfg
  split <;> rfl

theorem pushToIOS_none (req : PushNotification) (push : Nat → String → PushResult) :
    PushToIOS req none push
      = ⟨(pushLoop (effectiveCfg req) push
            (effectiveMaxRetry req.retry req.cfg.ios.maxRetry).toNat 0 req.tokens {}).1,
         (pushLoop (effectiveCfg req) push
            (effectiveMaxRetry req.retry req.cfg.ios.maxRetry).toNat 0 req.tokens {}).2,
         none⟩ := by
  simp only [PushToIOS, effectiveCfg_ios]

/-- A sent response (status 200) is never retryable (status at least 500). -/
theorem isRetryable_of_sent (r : PushResult) (h : isSent r = true) :
    isRetryable r = false := by
  unfold isSent at h
  unfold isRetryable
  cases hres : r.res with
  | none => rfl
  | some resp =>
    rw [hres] at h
    unfold APNSResponse.sent at h
    have : resp.statusCode = 200 := by simpa using h
    simp [this]

/-- A client-class response (status below 500) is never retryable. -/
theorem isRetryable_of_client (r : PushResult) (resp : APNSResponse)
    (hres : r.res = some resp) (hlt : resp.statusCode < 500) :
    isRetryable r = false := by
  unfold isRetryable
  rw [hres]
  simpa using by omega

/-! ## Claim theorems for the dispatch-and-retry engine -/

/-- C1: in every round of `PushToIOS`, the retry set handed to the next round
contains exactly the round's tokens whose attempt produced a non-nil provider
response with status code at least 500; a token whose attempt was classified
success (sent, status 200) is never in that round's retry set, and a token
whose attempt failed with a client-class status (below 500) never appears in
the token list of any subsequent round. -/
theorem pushToIOS_retry_classification (req : PushNotification)
    (clientErr : Option String) (push : Nat → String → PushResult) (i : Nat)
    (hi : i < (PushToIOS req clientErr push).trace.length) :
    (((PushToIOS req clientErr push).trace.getD i ⟨[], []⟩).retrySet
        = ((PushToIOS req clientErr push).trace.getD i ⟨[], []⟩).tokens.filter
            (fun t => isRetryable (push i t)))
    ∧ (∀ t, isSent (push i t) = true →
        t ∉ ((PushToIOS req clientErr push).trace.getD i ⟨[], []⟩).retrySet)
    ∧ (∀ t resp, t ∈ ((PushToIOS req clientErr push).trace.getD i ⟨[], []⟩).tokens →
        (push i t).res = some resp → resp.statusCode < 500 →
        ∀ j, i < j → j < (PushToIOS req clientErr push).trace.length →
          t ∉ ((PushToIOS req clientErr push).trace.getD j ⟨[], []⟩).tokens) := by
  cases clientErr with
  | some e => simp [PushToIOS] at hi
  | none =>
    rw [pushToIOS_none] at hi ⊢
    simp only at hi ⊢
    have hfilter := pushLoop_getD_retrySet (effectiveCfg req) push
      (effectiveMaxRetry req.retry req.cfg.ios.maxRetry).toNat 0 req.tokens {} i hi
    rw [Nat.zero_add] at hfilter
    refine ⟨hfilter, ?_, ?_⟩
    · intro t hsent
      rw [hfilter]
      intro hmem
      have := (List.mem_filter.mp hmem).2
      rw [isRetryable_of_sent (push i t) hsent] at this
      exact Bool.false_ne_true this
    · intro t resp _ hres hlt j hij hj
      refine pushLoop_absent (effectiveCfg req) push
        (effectiveMaxRetry req.retry req.cfg.ios.maxRetry).toNat 0 req.tokens {} t j hj i hij ?_
      rw [hfilter]
      intro hmem
      have := (List.mem_filter.mp hmem).2
      rw [isRetryable_of_client (push i t) resp hres hlt] at this
      exact Bool.false_ne_true this

/-- C1 witness: the three-token scenario.  Round 0 retries exactly the
server-class failure; the sent token is not in the retry set; the
client-class failure is absent from round 1. -/
theorem pushToIOS_retry_classification_witness :
    0 < (PushToIOS retryScenarioReq none retryScenarioPush).trace.length
    ∧ ((PushToIOS retryScenarioReq none retryScenarioPush).trace.getD 0 ⟨[], []⟩).retrySet
        = ((PushToIOS retryScenarioReq none retryScenarioPush).trace.getD 0 ⟨[], []⟩).tokens.filter
            (fun t => isRetryable (retryScenarioPush 0 t))
    ∧ "c" ∉ ((PushToIOS retryScenarioReq none retryScenarioPush).trace.getD 0 ⟨[], []⟩).retrySet
    ∧ "b" ∉ ((PushToIOS retryScenarioReq none retryScenarioPush).trace.getD 1 ⟨[], []⟩).tokens :=
  ⟨by decide,
   (pushToIOS_retry_classification retryScenarioReq none retryScenarioPush 0 (by decide)).1,
   (pushToIOS_retry_classification retryScenarioReq none retryScenarioPush 0 (by decide)).2.1
     "c" (by decide),
   (pushToIOS_retry_classification retryScenarioReq none retryScenarioPush 0 (by decide)).2.2
     "b" ⟨400, "BadDeviceToken"⟩ (by decide) (by decide) (by decide) 1 (by decide) (by decide)⟩

/-- C2: with a non-negative effective retry cap, `PushToIOS` runs at most
`cap + 1` rounds, every non-final round has a non-empty retry set (the loop
stops as soon as a round's retry set is empty), and at termination either the
final round's retry set is empty or the round count has reached `cap + 1`
(the counter reached the cap); an aborted dispatch has no rounds at all. -/
theorem pushToIOS_round_bound (req : PushNotification) (clientErr : Option String)
    (push : Nat → String → PushResult)
    (_hcap : 0 ≤ effectiveMaxRetry req.retry req.cfg.ios.maxRetry) :
    ((PushToIOS req clientErr push).trace.length
        ≤ (effectiveMaxRetry req.retry req.cfg.ios.maxRetry).toNat + 1)
    ∧ (∀ i, i + 1 < (PushToIOS req clientErr push).trace.length →
        ((PushToIOS req clientErr push).trace.getD i ⟨[], []⟩).retrySet ≠ [])
    ∧ ((PushToIOS req clientErr push).trace = []
        ∨ ((PushToIOS req clientErr push).trace.getD
              ((PushToIOS req clientErr push).trace.length - 1) ⟨[], []⟩).retrySet = []
        ∨ (PushToIOS req clientErr push).trace.length
            = (effectiveMaxRetry req.retry req.cfg.ios.maxRetry).toNat + 1) := by
  cases clientErr with
  | some e =>
    refine ⟨by simp [PushToIOS], ?_, Or.inl (by simp [PushToIOS])⟩
    intro i hi
    simp [PushToIOS] at hi
  | none =>
    rw [pushToIOS_none]
    simp only
    refine ⟨pushLoop_trace_length (effectiveCfg req) push _ 0 req.tokens {}, ?_, ?_⟩
    · intro i hi
      exact pushLoop_mid_retrySet_ne_nil (effectiveCfg req) push _ 0 req.tokens {} i hi
    · rcases pushLoop_last (effectiveCfg req) push
          (effectiveMaxRetry req.retry req.cfg.ios.maxRetry).toNat 0 req.tokens {} with h | h
      · exact Or.inr (Or.inl h)
      · exact Or.inr (Or.inr h)

/-- C2 witness: in the three-token scenario (effective cap 3) only two rounds
run, the first has a non-empty retry set, and the final retry set is empty. -/
theorem pushToIOS_round_bound_witness :
    0 ≤ effectiveMaxRetry retryScenarioReq.retry retryScenarioReq.cfg.ios.maxRetry
    ∧ (PushToIOS retryScenarioReq none retryScenarioPush).trace.length
        ≤ (effectiveMaxRetry retryScenarioReq.retry retryScenarioReq.cfg.ios.maxRetry).toNat + 1
    ∧ ((PushToIOS retryScenarioReq none retryScenarioPush).trace.getD 0 ⟨[], []⟩).retrySet ≠ []
    ∧ ((PushToIOS retryScenarioReq none retryScenarioPush).trace = []
        ∨ ((PushToIOS retryScenarioReq none retryScenarioPush).trace.getD
              ((PushToIOS retryScenarioReq none retryScenarioPush).trace.length - 1)
              ⟨[], []⟩).retrySet = []
        ∨ (PushToIOS retryScenarioReq none retryScenarioPush).trace.length
            = (effectiveMaxRetry retryScenarioReq.retry
                retryScenarioReq.cfg.ios.maxRetry).toNat + 1) :=
  ⟨by decide,
   (pushToIOS_round_bound retryScenarioReq none retryScenarioPush (by decide)).1,
   (pushToIOS_round_bound retryScenarioReq none retryScenarioPush (by decide)).2.1 0 (by decide),
   (pushToIOS_round_bound retryScenarioReq none retryScenarioPush (by decide)).2.2⟩

/-- C3: the effective retry cap equals `min(request.retry, deployment
maxRetry)` when the request retry is positive, and equals the deployment
maxRetry when the request retry is zero; in particular request retry 0
against deployment maxRetry 3 yields cap 3. -/
theorem effectiveMaxRetry_spec (r m : Int) :
    (0 < r → effectiveMaxRetry r m = min r m)
    ∧ (r = 0 → effectiveMaxRetry r m = m)
    ∧ effectiveMaxRetry 0 3 = 3 := by
  refine ⟨?_, ?_, by decide⟩
  · intro hr
    unfold effectiveMaxRetry
    rcases lt_or_le r m with h | h
    · simp [hr, h, min_eq_left h.le]
    · have : ¬r < m := not_lt.mpr h
      simp [hr, this, min_eq_right h]
  · intro hr
    subst hr
    simp [effectiveMaxRetry]

/-- C3 witness: concrete caps. -/
theorem effectiveMaxRetry_spec_witness :
    effectiveMaxRetry 2 5 = min 2 5 ∧ effectiveMaxRetry 0 7 = 7
      ∧ effectiveMaxRetry 0 3 = 3 :=
  ⟨(effectiveMaxRetry_spec 2 5).1 (by decide),
   (effectiveMaxRetry_spec 0 7).2.1 rfl,
   (effectiveMaxRetry_spec 0 3).2.2⟩

/-- C4 counterexample: an attempt that returns an error with a nil provider
response is counted as an error, yet the round's retry set is empty -- the
token is not included in the next round's retry set (there is no next round),
contradicting the claim that a no-response failure is retried. -/
theorem pushToIOS_no_response_cex :
    (PushToIOS noResponseReq none noResponsePush).state.iosError = 1
    ∧ (PushToIOS noResponseReq none noResponsePush).trace
        = [⟨["tokenA"], []⟩]
    ∧ "tokenA" ∉
        ((PushToIOS noResponseReq none noResponsePush).trace.getD 0 ⟨[], []⟩).retrySet := by
  decide

/-- C4 (amended): a token whose attempt receives no provider response (error
with nil response) is classified as a failure: the error counter counts it
and the failure is logged; but it is never added to the retry set -- only
attempts with a non-nil response and status at least 500 are retried. -/
theorem pushToIOS_no_response_amended (req : PushNotification)
    (clientErr : Option String) (push : Nat → String → PushResult) (i : Nat)
    (hi : i < (PushToIOS req clientErr push).trace.length) (t : String)
    (htok : t ∈ ((PushToIOS req clientErr push).trace.getD i ⟨[], []⟩).tokens)
    (hres : (push i t).res = none) (herr : (push i t).err.isSome = true) :
    isFailure (push i t) = true
    ∧ (⟨t, some (errMessage (push i t))⟩ : LogEntry)
        ∈ (PushToIOS req clientErr push).state.failedLogs
    ∧ (PushToIOS req clientErr push).state.iosError
        = traceErrors push 0 (PushToIOS req clientErr push).trace
    ∧ t ∉ ((PushToIOS req clientErr push).trace.getD i ⟨[], []⟩).retrySet := by
  have hfail : isFailure (push i t) = true := by
    unfold isFailure
    simp [herr]
  cases clientErr with
  | some e => simp [PushToIOS] at hi
  | none =>
    rw [pushToIOS_none] at hi htok ⊢
    simp only at hi htok ⊢
    have hlog := pushLoop_failure_logged (effectiveCfg req) push
      (effectiveMaxRetry req.retry req.cfg.ios.maxRetry).toNat 0 req.tokens {} i hi t
      (by simpa using htok) (by rw [Nat.zero_add]; exact hfail)
    rw [Nat.zero_add] at hlog
    refine ⟨hfail, hlog, ?_, ?_⟩
    · have := pushLoop_iosError (effectiveCfg req) push
        (effectiveMaxRetry req.retry req.cfg.ios.maxRetry).toNat 0 req.tokens {}
      simpa using this
    · have hfilter := pushLoop_getD_retrySet (effectiveCfg req) push
        (effectiveMaxRetry req.retry req.cfg.ios.maxRetry).toNat 0 req.tokens {} i hi
      rw [Nat.zero_add] at hfilter
      rw [hfilter]
      intro hmem
      have hret := (List.mem_filter.mp hmem).2
      unfold isRetryable at hret
      rw [hres] at hret
      exact Bool.false_ne_true hret

/-- C4 witness for the amended claim: the no-response scenario. -/
theorem pushToIOS_no_response_amended_witness :
    isFailure (noResponsePush 0 "tokenA") = true
    ∧ (⟨"tokenA", some (errMessage (noResponsePush 0 "tokenA"))⟩ : LogEntry)
        ∈ (PushToIOS noResponseReq none noResponsePush).state.failedLogs
    ∧ (PushToIOS noResponseReq none noResponsePush).state.iosError
        = traceErrors noResponsePush 0 (PushToIOS noResponseReq none noResponsePush).trace
    ∧ "tokenA" ∉
        ((PushToIOS noResponseReq none noResponsePush).trace.getD 0 ⟨[], []⟩).retrySet :=
  pushToIOS_no_response_amended noResponseReq none noResponsePush 0 (by decide) "tokenA"
    (by decide) (by decide) (by decide)

/-- C5: when client resolution fails, `PushToIOS` aborts the whole batch
before any token is attempted: no round runs, no counter changes, no log,
sync or feedback entry is produced, and the error is surfaced (logged as an
APN server error). -/
theorem pushToIOS_client_error_aborts (req : PushNotification) (e : String)
    (push : Nat → String → PushResult) :
    PushToIOS req (some e) push
      = { state := {}, trace := [], abortError := some ("APN server error: " ++ e) } := rfl

/-- C9: with the deployment configured synchronous but a non-local queue
engine, synchronous mode is force-disabled for the request: no failure is
appended to the request-scoped sync log buffer, and with a feedback URL
configured every logged failure goes through the feedback webhook path
instead. -/
theorem pushToIOS_sync_force_disabled (req : PushNotification)
    (clientErr : Option String) (push : Nat → String → PushResult)
    (hsync : req.cfg.core.sync = true)
    (hq : IsLocalQueue req.cfg.queue.engine = false) :
    (PushToIOS req clientErr push).state.syncLogs = []
    ∧ (req.cfg.core.feedbackURL ≠ "" →
        (PushToIOS req clientErr push).state.feedback
          = (PushToIOS req clientErr push).state.failedLogs) := by
  have hcfg : effectiveCfg req
      = { req.cfg with core := { req.cfg.core with sync := false } } := by
    unfold effectiveCfg
    simp [hsync, hq]
  have hsync' : (effectiveCfg req).core.sync = false := by rw [hcfg]
  have hurl' : (effectiveCfg req).core.feedbackURL = req.cfg.core.feedbackURL := by rw [hcfg]
  cases clientErr with
  | some e => exact ⟨rfl, fun _ => rfl⟩
  | none =>
    rw [pushToIOS_none]
    simp only
    refine ⟨?_, ?_⟩
    · exact pushLoop_syncLogs (effectiveCfg req) push hsync' _ 0 req.tokens {}
    · intro hurl
      exact pushLoop_feedback_eq_failedLogs (effectiveCfg req) push hsync'
        (by rw [hurl']; exact hurl) _ 0 req.tokens {} rfl

/-- C9 witness: the synchronous non-local deployment with failing pushes. -/
theorem pushToIOS_sync_force_disabled_witness :
    syncNonLocalReq.cfg.core.sync = true
    ∧ IsLocalQueue syncNonLocalReq.cfg.queue.engine = false
    ∧ (PushToIOS syncNonLocalReq none serverErrorPush).state.syncLogs = []
    ∧ (PushToIOS syncNonLocalReq none serverErrorPush).state.feedback
        = (PushToIOS syncNonLocalReq none serverErrorPush).state.failedLogs :=
  ⟨rfl, rfl,
   (pushToIOS_sync_force_disabled syncNonLocalReq none serverErrorPush rfl rfl).1,
   (pushToIOS_sync_force_disabled syncNonLocalReq none serverErrorPush rfl rfl).2
     (by decide)⟩

/-! ## Lemmas about the notification builder -/

theorem badge_ite (c : Prop) [Decidable c] (a b : Payload) :
    (if c then a else b).badge = if c then a.badge else b.badge := by
  split <;> rfl

theorem iosAlertDictionary_badge (p : Payload) (req : PushNotification) :
    (iosAlertDictionary p req).badge = p.badge := by
  simp only [iosAlertDictionary, badge_ite, Payload.AlertTitle, Payload.AlertBody,
    Payload.AlertSubtitle, Payload.AlertTitleLocKey, Payload.AlertLocArgs,
    Payload.AlertTitleLocArgs, Payload.AlertLaunchImage, Payload.AlertLocKey,
    Payload.AlertAction, Payload.AlertActionLocKey, Payload.AlertSummaryArg,
    Payload.AlertSummaryArgCount, Payload.Category, Payload.modAlert, ite_self]

theorem foldl_custom_badge :
    ∀ (l : List (String × String)) (p : Payload),
      (l.foldl (fun p kv => p.Custom kv.1 kv.2) p).badge = p.badge
  | [], _ => rfl
  | kv :: l, p => by
    simp only [List.foldl_cons]
    rw [foldl_custom_badge l]
    rfl

/-- C7: `GetIOSNotification` applies the badge iff the request badge is
present and non-negative (the applied value is the request's); concretely, a
badge of 0 sets payload badge 0 (clearing the app badge), while badge -1 and
an absent badge leave the payload badge unset, so badge 0 is observably
different from the other two inputs. -/
theorem getIOSNotification_badge (req : PushNotification) :
    ((GetIOSNotification req).payload.badge
        = match req.badge with
          | some b => if 0 ≤ b then some b else none
          | none => none)
    ∧ (GetIOSNotification { builderBaseReq with badge := some 0 }).payload.badge = some 0
    ∧ (GetIOSNotification { builderBaseReq with badge := some (-1) }).payload.badge = none
    ∧ (GetIOSNotification { builderBaseReq with badge := none }).payload.badge = none
    ∧ (GetIOSNotification { builderBaseReq with badge := some 0 }).payload.badge
        ≠ (GetIOSNotification { builderBaseReq with badge := some (-1) }).payload.badge := by
  refine ⟨?_, by decide, by decide, by decide, by decide⟩
  unfold GetIOSNotification
  cases hb : req.badge with
  | none =>
    cases hs : req.sound <;>
      simp [hb, hs, iosAlertDictionary_badge, foldl_custom_badge, badge_ite, ite_self,
        Payload.Alert, Payload.Badge, Payload.MutableContent, Payload.Sound,
        Payload.SoundName, Payload.SoundVolume, Payload.ContentAvailable,
        Payload.URLArgs, Payload.ThreadID]
  | some b =>
    by_cases hpos : (0 : Int) ≤ b <;>
      cases hs : req.sound <;>
        simp [hb, hs, hpos, iosAlertDictionary_badge, foldl_custom_badge, badge_ite,
          ite_self, Payload.Alert, Payload.Badge, Payload.MutableContent, Payload.Sound,
          Payload.SoundName, Payload.SoundVolume, Payload.ContentAvailable,
          Payload.URLArgs, Payload.ThreadID]

/-- C8 counterexample: the sound given as the plain string "default" and as
the mapping with name "default" and critical 1 produce different applied
sound payloads (a bare string versus a structured sound object carrying the
critical flag), so the three claimed shapes are not all equivalent. -/
theorem getIOSNotification_sound_cex :
    (GetIOSNotification { builderBaseReq with sound := .str "default" }).payload.sound
      ≠ (GetIOSNotification
          { builderBaseReq with
              sound := .dict (some 1) (some "default") none }).payload.sound := by
  decide

/-- C8 (amended): the mapping shape and the pre-built Sound-object shape
produce identical applied sound payloads (for every request, the decoded
mapping and the corresponding Sound object yield the same notification); the
plain-string shape instead applies the bare string as the sound payload,
which differs from the structured shape (it carries no critical flag), though
all three name the sound "default". -/
theorem getIOSNotification_sound_shapes :
    (∀ (req : PushNotification) (c : Option Int) (n : Option String) (v : Option Rat),
      GetIOSNotification { req with sound := GoSoundValue.dict c n v }
        = GetIOSNotification { req with sound := GoSoundValue.snd (mapstructureDecodeSound c n v) })
    ∧ (GetIOSNotification
          { builderBaseReq with sound := .dict (some 1) (some "default") none }).payload.sound
        = some (.obj { critical := 1, name := "default", volume := 0 })
    ∧ (GetIOSNotification
          { builderBaseReq with sound := .snd { critical := 1, name := "default" } }).payload.sound
        = some (.obj { critical := 1, name := "default", volume := 0 })
    ∧ (GetIOSNotification { builderBaseReq with sound := .str "default" }).payload.sound
        = some (.str "default") :=
  ⟨fun _ _ _ _ => rfl, by decide, by decide, by decide⟩

/-! ## Lemmas about the client factory -/

/-- A construction failure surfaces as a nil-client panic, never as a
returned error (the nil dereference happens before the error check). -/
theorem finishInit_newApnsClient_not_err (cfg : ConfYaml) (env : ApnsEnv) (e : String) :
    finishInit (newApnsClient cfg env) ≠ .err e := by
  unfold newApnsClient
  by_cases hp : cfg.core.httpProxy = ""
  · simp [hp, finishInit]
  · cases ht : env.configureTransports <;> simp [hp, ht, finishInit]

theorem finishInit_newApnsTokenClient_not_err (cfg : ConfYaml) (env : ApnsEnv) (e : String) :
    finishInit (newApnsTokenClient cfg env) ≠ .err e := by
  unfold newApnsTokenClient
  by_cases hp : cfg.core.httpProxy = ""
  · simp [hp, finishInit]
  · cases ht : env.configureTransports <;> simp [hp, ht, finishInit]

/-- `InitAPNSClient` returns an error iff key-material resolution failed or
the material is token-style with a missing key or team id. -/
theorem initAPNSClient_err_iff (cfg : ConfYaml) (env : ApnsEnv) (g : Option ApnsClient)
    (kp kb kt pw kid tid : String) (hen : cfg.ios.enabled = true) :
    (∃ e, InitAPNSClient cfg env g kp kb kt pw kid tid = .err e)
      ↔ ((∃ e, resolveKeyMaterial env (resolveField kp cfg.ios.keyPath)
              (resolveField kb cfg.ios.keyBase64) (resolveField kt cfg.ios.keyType)
              (resolveField pw cfg.ios.password) = .error e)
          ∨ (resolveKeyMaterial env (resolveField kp cfg.ios.keyPath)
              (resolveField kb cfg.ios.keyBase64) (resolveField kt cfg.ios.keyType)
              (resolveField pw cfg.ios.password) = .ok ".p8"
              ∧ (resolveField kid cfg.ios.keyID = "" ∨ resolveField tid cfg.ios.teamID = ""))) := by
  cases hr : resolveKeyMaterial env (resolveField kp cfg.ios.keyPath)
      (resolveField kb cfg.ios.keyBase64) (resolveField kt cfg.ios.keyType)
      (resolveField pw cfg.ios.password) with
  | error e => simp [InitAPNSClient, hen, hr]
  | ok ext =>
    by_cases hp8 : ext = ".p8"
    · subst hp8
      by_cases hids : resolveField kid cfg.ios.keyID = "" ∨ resolveField tid cfg.ios.teamID = ""
      · simp [InitAPNSClient, hen, hr, hids]
      · simp [InitAPNSClient, hen, hr, hids, finishInit_newApnsTokenClient_not_err cfg env]
    · simp [InitAPNSClient, hen, hr, hp8, finishInit_newApnsClient_not_err cfg env]

/-- Key-material resolution fails exactly on an unrecognized extension, an
unrecognized key type, or a failing decode. -/
theorem resolveKeyMaterial_err_iff (env : ApnsEnv) (p b kty pwd : String) :
    (∃ e, resolveKeyMaterial env p b kty pwd = .error e)
      ↔ ((p ≠ "" ∧ filepathExt p ∉ certExts)
          ∨ (p = "" ∧ b ≠ "" ∧ ("." ++ kty) ∉ certExts)
          ∨ (p ≠ "" ∧
              ((filepathExt p = ".p12" ∧ (env.fromP12File p pwd).isSome)
                ∨ (filepathExt p = ".pem" ∧ (env.fromPemFile p pwd).isSome)
                ∨ (filepathExt p = ".p8" ∧ (env.authKeyFromFile p).isSome)))
          ∨ (p = "" ∧ b ≠ "" ∧
              (match env.base64Decode b with
               | .error _ => True
               | .ok key =>
                 ("." ++ kty = ".p12" ∧ (env.fromP12Bytes key pwd).isSome)
                   ∨ ("." ++ kty = ".pem" ∧ (env.fromPemBytes key pwd).isSome)
                   ∨ ("." ++ kty = ".p8" ∧ (env.authKeyFromBytes key).isSome)))) := by
  by_cases hp : p = ""
  · by_cases hb : b = ""
    · subst hp
      subst hb
      simp [resolveKeyMaterial]
    · subst hp
      unfold resolveKeyMaterial
      cases hdec : env.base64Decode b with
      | error msg => simp [hb, hdec]
      | ok key =>
        by_cases h1 : "." ++ kty = ".p12"
        · cases ho : env.fromP12Bytes key pwd <;> simp [hb, hdec, h1, ho, certExts]
        · by_cases h2 : "." ++ kty = ".pem"
          · cases ho : env.fromPemBytes key pwd <;> simp [hb, hdec, h1, h2, ho, certExts]
          · by_cases h3 : "." ++ kty = ".p8"
            · cases ho : env.authKeyFromBytes key <;>
                simp [hb, hdec, h1, h2, h3, ho, certExts]
            · simp [hb, hdec, h1, h2, h3, certExts]
  · unfold resolveKeyMaterial
    by_cases h1 : filepathExt p = ".p12"
    · cases ho : env.fromP12File p pwd <;> simp [hp, h1, ho, certExts]
    · by_cases h2 : filepathExt p = ".pem"
      · cases ho : env.fromPemFile p pwd <;> simp [hp, h1, h2, ho, certExts]
      · by_cases h3 : filepathExt p = ".p8"
        · cases ho : env.authKeyFromFile p <;> simp [hp, h1, h2, h3, ho, certExts]
        · simp [hp, h1, h2, h3, certExts]

/-- Key-material resolution yields the token-style extension exactly when the
token-style material decoded successfully. -/
theorem resolveKeyMaterial_ok_p8_iff (env : ApnsEnv) (p b kty pwd : String) :
    resolveKeyMaterial env p b kty pwd = .ok ".p8"
      ↔ ((p ≠ "" ∧ filepathExt p = ".p8" ∧ env.authKeyFromFile p = none)
          ∨ (p = "" ∧ b ≠ "" ∧ "." ++ kty = ".p8"
              ∧ (∃ key, env.base64Decode b = .ok key ∧ env.authKeyFromBytes key = none))) := by
  by_cases hp : p = ""
  · by_cases hb : b = ""
    · subst hp
      subst hb
      simp [resolveKeyMaterial]
    · subst hp
      unfold resolveKeyMaterial
      cases hdec : env.base64Decode b with
      | error msg => simp [hb, hdec]
      | ok key =>
        by_cases h1 : "." ++ kty = ".p12"
        · cases ho : env.fromP12Bytes key pwd <;> simp [hb, hdec, h1, ho]
        · by_cases h2 : "." ++ kty = ".pem"
          · cases ho : env.fromPemBytes key pwd <;> simp [hb, hdec, h1, h2, ho]
          · by_cases h3 : "." ++ kty = ".p8"
            · cases ho : env.authKeyFromBytes key <;> simp [hb, hdec, h1, h2, h3, ho]
            · simp [hb, hdec, h1, h2, h3]
  · unfold resolveKeyMaterial
    by_cases h1 : filepathExt p = ".p12"
    · cases ho : env.fromP12File p pwd <;> simp [hp, h1, ho]
    · by_cases h2 : filepathExt p = ".pem"
      · cases ho : env.fromPemFile p pwd <;> simp [hp, h1, h2, ho]
      · by_cases h3 : filepathExt p = ".p8"
        · cases ho : env.authKeyFromFile p <;> simp [hp, h1, h2, h3, ho]
        · simp [hp, h1, h2, h3]

/-- C6: with the iOS provider enabled, `InitAPNSClient` returns a
configuration error exactly when the resolved key file path has an extension
outside the recognized set, or the resolved key type (for base64 material) is
outside that set, or base64/key decoding fails, or the key material is
token-style and the resolved key id or team id is empty; and when both the
resolved key path and base64 string are empty it returns no error but still
attempts construction and (without a proxy) yields a client. -/
theorem initAPNSClient_config_error_spec (cfg : ConfYaml) (env : ApnsEnv)
    (g : Option ApnsClient) (kp kb kt pw kid tid : String)
    (hen : cfg.ios.enabled = true) :
    ((∃ e, InitAPNSClient cfg env g kp kb kt pw kid tid = .err e)
        ↔ specConfigErrorCond cfg env kp kb kt pw kid tid)
    ∧ (resolveField kp cfg.ios.keyPath = "" → resolveField kb cfg.ios.keyBase64 = "" →
        InitAPNSClient cfg env g kp kb kt pw kid tid = finishInit (newApnsClient cfg env)
        ∧ (cfg.core.httpProxy = "" →
            InitAPNSClient cfg env g kp kb kt pw kid tid
              = .ok (some ⟨false, cfg.ios.production, false⟩))) := by
  constructor
  · rw [initAPNSClient_err_iff cfg env g kp kb kt pw kid tid hen,
      resolveKeyMaterial_err_iff, resolveKeyMaterial_ok_p8_iff]
    simp only [specConfigErrorCond]
    constructor
    · rintro ((h | h | h | h) | ⟨hp8, hids⟩)
      · exact Or.inl h
      · exact Or.inr (Or.inl h)
      · exact Or.inr (Or.inr (Or.inl h))
      · exact Or.inr (Or.inr (Or.inr (Or.inl h)))
      · refine Or.inr (Or.inr (Or.inr (Or.inr ⟨?_, hids⟩)))
        rcases hp8 with ⟨hp, he, _⟩ | ⟨hp, hb, hk, _⟩
        · exact Or.inl ⟨hp, he⟩
        · exact Or.inr ⟨hp, hb, hk⟩
    · rintro (h | h | h | h | ⟨hstyle, hids⟩)
      · exact Or.inl (Or.inl h)
      · exact Or.inl (Or.inr (Or.inl h))
      · exact Or.inl (Or.inr (Or.inr (Or.inl h)))
      · exact Or.inl (Or.inr (Or.inr (Or.inr h)))
      · rcases hstyle with ⟨hp, he⟩ | ⟨hp, hb, hk⟩
        · cases ho : env.authKeyFromFile (resolveField kp cfg.ios.keyPath) with
          | none => exact Or.inr ⟨Or.inl ⟨hp, he, rfl⟩, hids⟩
          | some msg =>
            refine Or.inl (Or.inr (Or.inr (Or.inl ⟨hp, Or.inr (Or.inr ⟨he, ?_⟩)⟩)))
            simp [ho]
        · cases hdec : env.base64Decode (resolveField kb cfg.ios.keyBase64) with
          | error msg =>
            refine Or.inl (Or.inr (Or.inr (Or.inr ⟨hp, hb, ?_⟩)))
            simp [hdec]
          | ok key =>
            cases ho : env.authKeyFromBytes key with
            | none => exact Or.inr ⟨Or.inr ⟨hp, hb, hk, key, rfl, ho⟩, hids⟩
            | some msg =>
              refine Or.inl (Or.inr (Or.inr (Or.inr ⟨hp, hb, ?_⟩)))
              simp only [hdec]
              exact Or.inr (Or.inr ⟨hk, by simp [ho]⟩)
  · intro hp hb
    have hres : resolveKeyMaterial env (resolveField kp cfg.ios.keyPath)
        (resolveField kb cfg.ios.keyBase64) (resolveField kt cfg.ios.keyType)
        (resolveField pw cfg.ios.password) = .ok "" := by
      simp [resolveKeyMaterial, hp, hb]
    have hcall : InitAPNSClient cfg env g kp kb kt pw kid tid
        = finishInit (newApnsClient cfg env) := by
      simp [InitAPNSClient, hen, hres]
    refine ⟨hcall, ?_⟩
    intro hproxy
    rw [hcall]
    simp [newApnsClient, hproxy, finishInit]

/-- C6 witness: an enabled deployment with no key path and no base64 string
and an all-succeeding oracle. -/
theorem initAPNSClient_config_error_spec_witness :
    noResponseReq.cfg.ios.enabled = true
    ∧ ((∃ e, InitAPNSClient noResponseReq.cfg okEnv none "" "" "" "" "" "" = .err e)
        ↔ specConfigErrorCond noResponseReq.cfg okEnv "" "" "" "" "" "")
    ∧ InitAPNSClient noResponseReq.cfg okEnv none "" "" "" "" "" ""
        = finishInit (newApnsClient noResponseReq.cfg okEnv)
    ∧ InitAPNSClient noResponseReq.cfg okEnv none "" "" "" "" "" ""
        = .ok (some ⟨false, noResponseReq.cfg.ios.production, false⟩) :=
  ⟨rfl,
   (initAPNSClient_config_error_spec noResponseReq.cfg okEnv none "" "" "" "" "" "" rfl).1,
   ((initAPNSClient_config_error_spec noResponseReq.cfg okEnv none "" "" "" "" "" "" rfl).2
     rfl rfl).1,
   ((initAPNSClient_config_error_spec noResponseReq.cfg okEnv none "" "" "" "" "" "" rfl).2
     rfl rfl).2 rfl⟩

/-- C10: evidence of the code bug.  When the inner client construction
returns an error together with a nil client (a proxy is configured and HTTP/2
transport configuration fails), `InitAPNSClient` dereferences the nil client
at the transport-health-check access (lines 157-159) before the error check
(lines 161-165): the call ends in a nil-pointer dereference instead of
returning the error. -/
theorem initAPNSClient_nil_client_deref :
    newApnsClient proxyCfg badTransportEnv
        = (none, some "http2: could not configure transport")
    ∧ InitAPNSClient proxyCfg badTransportEnv none "" "" "" "" "" "" = .nilPanic := by
  decide

end Gorush
